import Mathlib

/-!
Shallow embedding of the Befunge-93 interpreter in `src/b93.cc`.

The interpreter keeps a flat character grid `data` of `max_row_size` rows and
`max_col_size + 1` columns (the extra column comes from the newline slot that
`grid_t` reserves), a stack of 32-bit integers, a cursor position `pos` and a
direction vector `dir`.  The cell under the cursor is `data[pos[1]*cols + pos[0]]`.

Modelling choices:
* stack values are `Int` (the C++ `std::int32_t`; none of the verified
  instructions overflows 32 bits on the inputs considered),
* the grid is a total function `Int → Int` from flat index to the stored
  character value; `p` stores the `int → char` conversion of the popped value
  (8-bit two's complement, sign-extended on read-back, as on the reference
  platform where `char` is signed),
* C++ `%` and `/` on the signed `int32_t` stack values truncate towards
  zero, so they are `Int.tmod` and `Int.tdiv`; the `%` in the `move` lambda
  instead has a `std::size_t` right operand (`grid_t::rows`/`cols`), so the
  usual arithmetic conversions make it unsigned 64-bit arithmetic, modelled
  by `usize` (reduction modulo `2^64`) followed by mathematical `%` on
  non-negative values,
* the stack is a `List Int` whose head is the top (`stack.back()`).
-/

namespace B93

/-- Constant `max_row_size` from `b93.cc`. -/
def max_row_size : Int := 25

/-- Constant `max_col_size` from `b93.cc`. -/
def max_col_size : Int := 80

/-- Field `grid_t::rows`. -/
def rows : Int := max_row_size

/-- Field `grid_t::cols` (`max_col_size + 1`). -/
def cols : Int := max_col_size + 1

/-- The grid contents, as a function from flat index to character value. -/
abbrev Grid := Int → Int

/-- The interpreter stack; head of the list is `stack.back()`. -/
abbrev Stack := List Int

/-- A position or direction vector: component 0 is x, component 1 is y. -/
abbrev V2 := Int × Int

/-- The `push` lambda: `stack.push_back(value)`. -/
def push (v : Int) (s : Stack) : Stack := v :: s

/-- The `pop` lambda: on an empty stack return 0, otherwise remove and
return `stack.back()`. -/
def pop : Stack → Int × Stack
  | [] => (0, [])
  | v :: s => (v, s)

/-- The conversion of a signed 64-bit value to `std::size_t` (unsigned
64-bit): reduction modulo `2^64 = 18446744073709551616` into `[0, 2^64)`. -/
def usize (a : Int) : Int := a % 18446744073709551616

/-- The `move` lambda:
`pos[i] = ((pos[i] + dir[i]) % size + size) % size`.  `grid_t` declares
`rows` and `cols` as `std::size_t` and the lambda captures them as such,
while `pos`/`dir` hold `std::ptrdiff_t`; the usual arithmetic conversions
therefore convert the signed sum `pos[i] + dir[i]` to unsigned 64-bit before
`%`, and every operation in the expression is unsigned (so the later `%` and
`+` act on non-negative values and are plain mathematical `%`). -/
def move (pos dir : V2) : V2 :=
  ((usize (pos.1 + dir.1) % cols + cols) % cols,
   (usize (pos.2 + dir.2) % rows + rows) % rows)

/-- The `dirs` table from `b93.cc`:
`{{{0, 1}, {0, -1}, {-1, 0}, {1, 0}}}`. -/
def dirs : List V2 := [(0, 1), (0, -1), (-1, 0), (1, 0)]

/-- The direction installed by `>` (`dirs[3]`): it increments the x
coordinate, i.e. moves the cursor east. -/
def east : V2 := (1, 0)

/-- The direction installed by `<` (`dirs[2]`): it decrements the x
coordinate, i.e. moves the cursor west. -/
def west : V2 := (-1, 0)

/-- The cursor position is inside the grid. -/
def inBounds (pos : V2) : Prop :=
  0 ≤ pos.1 ∧ pos.1 < cols ∧ 0 ≤ pos.2 ∧ pos.2 < rows

instance (pos : V2) : Decidable (inBounds pos) := by
  unfold inBounds; infer_instance

/-- The C++ `int32_t → char` conversion performed by `data[...] = value` in
case `'p'`: keep the low 8 bits, two's complement (`char` is signed on the
reference platform, so read-back sign-extends). -/
def sign8 (v : Int) : Int := (v + 128) % 256 - 128

/-- Case `'_'`: `dir = pop() != 0 ? dirs[2] : dirs[3]`.
Returns the new stack and the new direction. -/
def case_underscore (s : Stack) : Stack × V2 :=
  let (v, s1) := pop s
  (s1, if v ≠ 0 then dirs[2]! else dirs[3]!)

/-- Case `'-'`: `a = pop(); b = pop(); push(b - a)`. -/
def case_sub (s : Stack) : Stack :=
  let (a, s1) := pop s
  let (b, s2) := pop s1
  push (b - a) s2

/-- Case `'/'`: `a = pop(); b = pop(); push(b / a)` (C++ division truncates
towards zero). -/
def case_div (s : Stack) : Stack :=
  let (a, s1) := pop s
  let (b, s2) := pop s1
  push (b.tdiv a) s2

/-- Case `'%'`: `a = pop(); b = pop(); push(b % a)` (C++ remainder truncates
towards zero). -/
def case_mod (s : Stack) : Stack :=
  let (a, s1) := pop s
  let (b, s2) := pop s1
  push (b.tmod a) s2

/-- Case `'\\'`: switch on `stack.size()` — two or more: swap the two top
entries; empty: nothing; exactly one: `push(0)`. -/
def case_swap (s : Stack) : Stack :=
  match s with
  | [] => s
  | [v] => push 0 [v]
  | a :: b :: t => b :: a :: t

/-- Case `'g'`: pop y, pop x; push `data[y * cols + x]` if
`0 ≤ x < max_col_size` and `0 ≤ y < max_row_size`, else push 0. -/
def case_g (data : Grid) (s : Stack) : Stack :=
  let (y, s1) := pop s
  let (x, s2) := pop s1
  push (if 0 ≤ x ∧ x < max_col_size ∧ 0 ≤ y ∧ y < max_row_size
          then data (y * cols + x) else 0) s2

/-- Case `'p'`: pop y, pop x, pop value; if `0 ≤ x < max_col_size` and
`0 ≤ y < max_row_size` then `data[y * cols + x] = value` (an `int → char`
store), else discard.  Returns the new grid and the new stack. -/
def case_p (data : Grid) (s : Stack) : Grid × Stack :=
  let (y, s1) := pop s
  let (x, s2) := pop s1
  let (v, s3) := pop s2
  (if 0 ≤ x ∧ x < max_col_size ∧ 0 ≤ y ∧ y < max_row_size
     then fun j => if j = y * cols + x then sign8 v else data j
     else data, s3)

/-- The inner loop of case `'"'`: while the character under the cursor is not
a quote (ASCII 34), push it and `move()`; stop at the quote.  The loop in the
source has no fuel; `none` means the fuel ran out before a quote was found. -/
def string_loop : Nat → Grid → V2 → V2 → Stack → Option (V2 × Stack)
  | 0, _, _, _, _ => none
  | fuel + 1, data, pos, dir, s =>
    if data (pos.2 * cols + pos.1) ≠ 34 then
      string_loop fuel data (move pos dir) dir (push (data (pos.2 * cols + pos.1)) s)
    else
      some (pos, s)

/-- Case `'"'`: `move()` once, then run the string-mode loop. -/
def case_quote (fuel : Nat) (data : Grid) (pos dir : V2) (s : Stack) :
    Option (V2 × Stack) :=
  string_loop fuel data (move pos dir) dir s

/-- Helper for C10: under the unsigned wrap of `move`, a west-moving string
scan confined to row 0 at columns `0..59` stays there forever (one west step
from column `x ≥ 1` lands at `x - 1`, and from column 0 it lands at 51,
because `(2^64 - 1) % 81 = 51`), so if no cell of that region holds a quote
the loop never stops, whatever the fuel. -/
theorem west_scan_stuck (data : Grid)
    (hdata : ∀ j : Int, 0 ≤ j → j ≤ 59 → data j ≠ 34) :
    ∀ (fuel : Nat) (pos : V2) (s : Stack),
      0 ≤ pos.1 → pos.1 ≤ 59 → pos.2 = 0 →
      string_loop fuel data pos west s = none := by
  intro fuel
  induction fuel with
  | zero =>
    intro pos s _ _ _
    rfl
  | succ n ih =>
    rintro ⟨x, y⟩ s h0 h1 h2
    subst h2
    have hcell : data (0 * cols + x) ≠ 34 := by
      rw [show (0 : Int) * cols + x = x by ring]
      exact hdata x h0 h1
    have hb : 0 ≤ (move (x, 0) west).1 ∧ (move (x, 0) west).1 ≤ 59 ∧
        (move (x, 0) west).2 = 0 := by
      rcases eq_or_ne x 0 with rfl | hx
      · exact ⟨by decide, by decide, by decide⟩
      · simp only [move, west, usize, cols, rows, max_col_size, max_row_size]
        rw [Int.emod_eq_of_lt (show (0 : Int) ≤ x + -1 by omega)
              (show x + -1 < (18446744073709551616 : Int) by omega),
            Int.emod_eq_of_lt (show (0 : Int) ≤ 0 + 0 by omega)
              (show (0 : Int) + 0 < (18446744073709551616 : Int) by omega)]
        refine ⟨?_, ?_, ?_⟩ <;> omega
    simp only [string_loop]
    rw [if_pos hcell]
    exact ih (move (x, 0) west) _ hb.1 hb.2.1 hb.2.2

/-! ### Claims -/

set_option maxRecDepth 20000 in
/-- C3 (code-bug evaluation): `grid_t::cols`/`rows` are `std::size_t`, so
`(pos + dir) % cols` converts the signed sum to unsigned 64-bit.  One west
step from `x = 0` therefore lands at `x = 51` (`(2^64 - 1) % 81 = 51`), not
at `x = 80`; advancing `cols = 81` times west from `(0, 0)` ends at
`(23, 0)`, and advancing `rows = 25` times north ends at `(0, 7)` — the
toroidal round-trip claimed for every position and direction fails. -/
theorem C3_code_bug_eval :
    move ((0 : Int), (0 : Int)) west = (51, 0) ∧
    move ((0 : Int), (0 : Int)) ((0 : Int), (-1 : Int)) = (0, 15) ∧
    (fun q => move q west)^[cols.toNat] ((0 : Int), (0 : Int)) = (23, 0) ∧
    (fun q => move q west)^[cols.toNat] ((0 : Int), (0 : Int)) ≠ ((0 : Int), (0 : Int)) ∧
    (fun q => move q ((0 : Int), (-1 : Int)))^[rows.toNat] ((0 : Int), (0 : Int)) = (0, 7) := by
  refine ⟨by decide, by decide, by decide, by decide, by decide⟩

/-- C2 (counterexample): writing `v = 256` at in-bounds coordinates
`(x, y) = (0, 0)` with `p` and reading the same cell back with `g` pushes 0
(the `int → char` store kept only the low 8 bits), not the 256 that was
written, so the round trip does not return exactly the written value. -/
theorem C2_counterexample :
    case_g (case_p (fun _ => (32 : Int)) [0, 0, 256]).1 ([0, 0] : Stack) = [(0 : Int)] ∧
    (0 : Int) ≠ 256 := by
  exact ⟨by decide, by decide⟩

/-- C2 (amended): for in-bounds coordinates, `g` right after `p` at the same
coordinates pushes the char-converted value `sign8 v` of the value `v` just
written — which is exactly `v` whenever `v` fits in the grid's character cell
(`-128 ≤ v ≤ 127`). -/
theorem C2_p_then_g_roundtrip (data : Grid) (x y v : Int) (s t : Stack)
    (hx0 : 0 ≤ x) (hx1 : x < max_col_size) (hy0 : 0 ≤ y) (hy1 : y < max_row_size) :
    case_g (case_p data (y :: x :: v :: s)).1 (y :: x :: t) = push (sign8 v) t ∧
    (-128 ≤ v → v ≤ 127 → sign8 v = v) := by
  constructor
  · simp only [case_p, case_g, pop]
    rw [if_pos ⟨hx0, hx1, hy0, hy1⟩, if_pos ⟨hx0, hx1, hy0, hy1⟩, if_pos rfl]
  · intro h1 h2
    unfold sign8
    omega

theorem C2_witness :
    (0 : Int) ≤ 2 ∧ (2 : Int) < max_col_size ∧ (0 : Int) ≤ 3 ∧ (3 : Int) < max_row_size ∧
    (case_g (case_p (fun _ => (32 : Int)) [3, 2, 65]).1 ([3, 2] : Stack) =
        push (sign8 65) [] ∧
      ((-128 : Int) ≤ 65 → (65 : Int) ≤ 127 → sign8 65 = 65)) :=
  ⟨by decide, by decide, by decide, by decide,
    C2_p_then_g_roundtrip (fun _ => (32 : Int)) 2 3 65 [] []
      (by decide) (by decide) (by decide) (by decide)⟩

/-- C8: `p` at out-of-bounds coordinates (against the unwrapped program
dimensions `max_col_size × max_row_size`) pops all three values but leaves
the grid — every cell of it — unchanged: the write is discarded, not
wrapped. -/
theorem C8_p_out_of_bounds_is_frame (data : Grid) (x y v : Int) (s : Stack)
    (h : x < 0 ∨ max_col_size ≤ x ∨ y < 0 ∨ max_row_size ≤ y) :
    case_p data (y :: x :: v :: s) = (data, s) := by
  have hneg : ¬(0 ≤ x ∧ x < max_col_size ∧ 0 ≤ y ∧ y < max_row_size) := by
    simp only [max_col_size, max_row_size] at h ⊢
    omega
  simp only [case_p, pop]
  rw [if_neg hneg]

theorem C8_witness :
    ((80 : Int) < 0 ∨ max_col_size ≤ 80 ∨ (0 : Int) < 0 ∨ max_row_size ≤ 0) ∧
    case_p (fun _ => (32 : Int)) [0, 80, 65] = ((fun _ => (32 : Int)), ([] : Stack)) :=
  ⟨by decide,
    C8_p_out_of_bounds_is_frame (fun _ => (32 : Int)) 80 0 65 [] (by decide)⟩

/-- C9: at in-bounds coordinates `p` stores only the char conversion
`sign8 v` of the popped value `v` (low 8 bits, two's complement,
sign-extended on read-back), so a subsequent `g` at the same coordinates
pushes `sign8 v`; whenever `v` lies outside the char range this differs
from `v` itself. -/
theorem C9_p_stores_char_conversion (data : Grid) (x y v : Int) (s t : Stack)
    (hx0 : 0 ≤ x) (hx1 : x < max_col_size) (hy0 : 0 ≤ y) (hy1 : y < max_row_size) :
    (case_p data (y :: x :: v :: s)).1 (y * cols + x) = sign8 v ∧
    case_g (case_p data (y :: x :: v :: s)).1 (y :: x :: t) = push (sign8 v) t ∧
    (v < -128 ∨ 127 < v → sign8 v ≠ v) := by
  refine ⟨?_, ?_, ?_⟩
  · simp only [case_p, pop]
    rw [if_pos ⟨hx0, hx1, hy0, hy1⟩]
    simp
  · simp only [case_p, case_g, pop]
    rw [if_pos ⟨hx0, hx1, hy0, hy1⟩, if_pos ⟨hx0, hx1, hy0, hy1⟩, if_pos rfl]
  · intro h
    unfold sign8
    omega

theorem C9_witness :
    (0 : Int) ≤ 4 ∧ (4 : Int) < max_col_size ∧ (0 : Int) ≤ 1 ∧ (1 : Int) < max_row_size ∧
    ((case_p (fun _ => (32 : Int)) [1, 4, 300]).1 ((1 : Int) * cols + 4) = sign8 300 ∧
      case_g (case_p (fun _ => (32 : Int)) [1, 4, 300]).1 ([1, 4] : Stack) =
        push (sign8 300) [] ∧
      ((300 : Int) < -128 ∨ (127 : Int) < 300 → sign8 300 ≠ 300)) :=
  ⟨by decide, by decide, by decide, by decide,
    C9_p_stores_char_conversion (fun _ => (32 : Int)) 4 1 300 [] []
      (by decide) (by decide) (by decide) (by decide)⟩

/-- C10 (code-bug evaluation): the string scan entered by `"` need not
terminate, because the unsigned wrap makes the west step non-injective
(both `x = 52` and `x = 0` map to 51), so the scan cycle need not contain
the opening quote's cell.  Witness grid: a single quote at `(x, y) =
(60, 0)` (flat index 60), every other cell a space.  Executing `"` there
moving west, the scan visits only columns `0..59` of row 0 and never sees a
quote: for every fuel bound the loop is still running (`none`), i.e. the
C++ loop runs forever. -/
theorem C10_code_bug (fuel : Nat) :
    case_quote fuel (fun j => if j = 60 then (34 : Int) else 32) (60, 0) west [] = none := by
  unfold case_quote
  apply west_scan_stuck
  · intro j hj0 hj1
    rw [if_neg (by omega)]
    decide
  · decide
  · decide
  · decide

/-- C1 (counterexample): with an empty stack, `_` does not set the direction
to west — `pop()` yields 0, `0 != 0` is false, and the code takes the
`dirs[3]` branch, which is the direction `>` installs (east, incrementing x). -/
theorem C1_counterexample : (case_underscore ([] : Stack)).2 ≠ west := by decide

/-- C1 (amended): for every program state in which the stack is empty,
executing `_` (empty pop yields 0) sets the direction to east,
deterministically (the new direction depends only on the popped value, and
the stack stays empty). -/
theorem C1_empty_underscore_goes_east :
    case_underscore ([] : Stack) = ([], east) := by decide

/-- C4: `pop` on the empty stack yields 0 and leaves the stack empty (no
failure, no mutation), and `push` always succeeds: it is total and always
grows the stack by exactly one entry, with the pushed value on top. -/
theorem C4_pop_empty_push_total :
    pop ([] : Stack) = (0, []) ∧
    ∀ (v : Int) (s : Stack), (push v s).length = s.length + 1 ∧ (push v s).head? = some v := by
  exact ⟨rfl, fun v s => ⟨by simp [push], rfl⟩⟩

/-- C5: executing `_` pops a value `v` and sets the direction to west
(`dirs[2]`, the vector `<` installs) if `v ≠ 0` and to east (`dirs[3]`, the
vector `>` installs) if `v = 0`; on an empty stack the popped value is 0 and
the direction becomes east. -/
theorem C5_underscore_pops_and_branches :
    (∀ (v : Int) (s : Stack),
      case_underscore (push v s) = (s, if v = 0 then east else west)) ∧
    case_underscore ([] : Stack) = ([], east) := by
  refine ⟨fun v s => ?_, by decide⟩
  rcases eq_or_ne v 0 with rfl | h
  · simp [case_underscore, push, pop, east, dirs]
  · simp [case_underscore, push, pop, west, dirs, h]

/-- C6: each of `-`, `/`, `%` pops `a` first, then `b`, and pushes the single
result `b OP a` (with C++ truncating division and remainder); in particular
pushing 2 then 3 and executing `-` leaves exactly `-1` on the stack. -/
theorem C6_sub_div_mod_operand_order (a b : Int) (s : Stack) :
    case_sub (push a (push b s)) = push (b - a) s ∧
    case_div (push a (push b s)) = push (b.tdiv a) s ∧
    case_mod (push a (push b s)) = push (b.tmod a) s ∧
    case_sub (push 3 (push 2 ([] : Stack))) = [-1] := by
  exact ⟨rfl, rfl, rfl, by decide⟩

/-- C7: `\` on a stack with two or more values exchanges the top two; on a
stack holding exactly one value `v` it yields the two-element stack whose top
is 0 and whose bottom is `v`; on an empty stack it is a no-op. -/
theorem C7_swap_cases :
    case_swap ([] : Stack) = [] ∧
    (∀ v : Int, case_swap [v] = [0, v]) ∧
    (∀ (a b : Int) (t : Stack), case_swap (a :: b :: t) = b :: a :: t) := by
  exact ⟨rfl, fun v => rfl, fun a b t => rfl⟩

end B93
